import Mathlib

/-!
Verification of the HTTP stats service in `src/main.cc` (request handler,
REST metrics endpoints, timeout fallback, load monitor, process
configuration).  Each C++ function used by the claims is shallowly embedded
as an executable Lean definition; stateful code is explicit state passing,
and observable effects (responses sent, timer armings, stream writes, log
lines) are reified as action lists.
-/

namespace Stats

/-- Body of an HTTP response as produced by `Net::Http::Response::send` in
`main.cc`: either absent (`send(code)`), a concrete string
(`send(code, str)`), or indeterminate (a string whose construction reads
out-of-range memory, as in the fall-through of `doGetMetric`). -/
inductive Body where
  | empty : Body
  | str (s : String) : Body
  | indeterminate : Body
  deriving DecidableEq, Repr

/-- One completed `response.send(code, body)` call: the numeric HTTP status
code and the body. `Net::Http::Code::Ok = 200`, `Created = 201`,
`Not_Found = 404`, `Request_Timeout = 408`. -/
structure Sent where
  code : Nat
  body : Body
  deriving DecidableEq, Repr

/-- `StatsEndpoint::Metric` (main.cc lines 206–229): a named integer
counter. -/
structure Metric where
  name_ : String
  value_ : Int
  deriving DecidableEq, Repr

/-- `Metric::incr(n)` (main.cc lines 213–217): `old = value_; value_ += n;
return old;` — returns the value observed immediately before the increment,
together with the updated metric. -/
def Metric.incr (m : Metric) (n : Int) : Int × Metric :=
  (m.value_, { m with value_ := m.value_ + n })

/-- `Metric::value()` (main.cc line 219). -/
def Metric.value (m : Metric) : Int := m.value_

/-- The `std::vector<Metric> metrics` store of `StatsEndpoint`
(main.cc line 231), in iteration order. -/
abbrev Metrics := List Metric

/-- The predicate of the `std::find_if` lambdas in `doRecordMetric` and
`doGetMetric`: `metric.name() == name`. -/
def nameIs (name : String) (m : Metric) : Bool := m.name_ == name

/-- `StatsEndpoint::doRecordMetric` (main.cc lines 173–189): scan the
metrics vector for the first metric with the given name; if none is found
(`it == std::end(metrics)`), push back `Metric(name, 1)` and
`send(Code::Created)`; otherwise `metric.incr(1)` and
`send(Code::Ok, std::to_string(metric.value()))`.  The linear scan plus
in-place update / back insertion is embedded as structural recursion over
the vector. -/
def doRecordMetric : Metrics → String → Metrics × Sent
  | [], name => ([⟨name, 1⟩], ⟨201, Body.empty⟩)
  | m :: ms, name =>
    if nameIs name m then
      let r := m.incr 1
      (r.2 :: ms, ⟨200, Body.str (toString r.2.value_)⟩)
    else
      let r := doRecordMetric ms name
      (m :: r.1, r.2)

/-- One observable step of `StatsEndpoint::doGetMetric`: a completed send,
or the dereference of `std::end(metrics)` (an out-of-range access). -/
inductive GetStep where
  | sent (s : Sent) : GetStep
  | derefEnd : GetStep
  deriving DecidableEq, Repr

/-- `StatsEndpoint::doGetMetric` (main.cc lines 191–204): scan for the
name; if absent, `send(Code::Not_Found)` — but the `if` has no `else` and
the branch does not return, so control falls through,
`const auto& metric = *it` dereferences the end iterator, and
`send(Code::Ok, std::to_string(metric.value()))` runs a second time with a
body read from out-of-range memory.  If the name is present, the single
`send(Code::Ok, ...)` with the metric's value runs. -/
def doGetMetric (ms : Metrics) (name : String) : List GetStep :=
  match ms.find? (nameIs name) with
  | some m => [GetStep.sent ⟨200, Body.str (toString m.value_)⟩]
  | none =>
      [GetStep.sent ⟨404, Body.empty⟩, GetStep.derefEnd,
       GetStep.sent ⟨200, Body.indeterminate⟩]

/-- The number of `response.send` calls among a list of `doGetMetric`
steps. -/
def sendCount (steps : List GetStep) : Nat :=
  steps.countP (fun st => match st with | GetStep.sent _ => true | _ => false)

end Stats

namespace Handler

/-- HTTP methods distinguished by `MyHandler::onRequest` (only `Get` and
`Post` are tested; everything else falls through). -/
inductive Method where
  | get | post | put | delete | head | options
  deriving DecidableEq, Repr

/-- The decoded request as seen by `MyHandler::onRequest`:
`req.resource()`, `req.method()`, `req.query()` (modelled as the list of
parameter keys present, so `query.has(k)` is list membership) and
`req.body()`. -/
structure Request where
  resource : String
  method : Method
  query : List String
  body : String
  deriving DecidableEq, Repr

/-- One observable effect of `MyHandler::onRequest` (main.cc lines 24–79):
arming the request timeout, writing to `std::cout`, adding a response
header, opening a chunked stream, writing a chunk, signalling stream end
(`ends`), a single-shot `send`, throwing, or starting the async
`serveFile`. -/
inductive Action where
  | armTimeout (seconds : Nat) : Action
  | logLine (s : String) : Action
  | headerServer (s : String) : Action
  | headerContentType (mime : String) : Action
  | beginStream (code : Nat) : Action
  | streamWrite (chunk : String) : Action
  | streamEnds : Action
  | send (s : Stats.Sent) : Action
  | throwException (what : String) : Action
  | serveFile (path : String) : Action
  deriving DecidableEq, Repr

/-- `MyHandler::onRequest` (main.cc lines 24–79), branch for branch:
`/ping` GET arms a 2-second timeout and, only if the `chunked` query flag
is present, logs, sets Server/ContentType headers and streams "PO", "NG",
`ends` with `Code::Ok`; `/echo` POST echoes the body; `/exception` throws;
`/timeout` arms a 5-second timeout; `/static` GET serves `README.md`
(the `/async` branch is compiled out by `#if 0`). -/
def onRequest (req : Request) : List Action :=
  if req.resource == "/ping" then
    if req.method == Method.get then
      [Action.armTimeout 2] ++
      (if req.query.contains "chunked" then
        [Action.logLine "Using chunked encoding",
         Action.headerServer "lys",
         Action.headerContentType "text/plain",
         Action.beginStream 200,
         Action.streamWrite "PO",
         Action.streamWrite "NG",
         Action.streamEnds]
       else [])
    else []
  else if req.resource == "/echo" then
    if req.method == Method.post then
      [Action.send ⟨200, Stats.Body.str req.body⟩]
    else []
  else if req.resource == "/exception" then
    [Action.throwException "Exception thrown in the handler"]
  else if req.resource == "/timeout" then
    [Action.armTimeout 5]
  else if req.resource == "/static" then
    if req.method == Method.get then [Action.serveFile "README.md"] else []
  else []

/-- `MyHandler::onTimeout` (main.cc lines 81–85): the fallback response it
sends is `send(Code::Request_Timeout, "Timeout")`, i.e. status 408 with
body `"Timeout"`. -/
def onTimeout : Stats.Sent := ⟨408, Stats.Body.str "Timeout"⟩

/-- The chunks written between `beginStream` and `streamEnds` in an action
list. -/
def chunksOf (as : List Action) : List String :=
  as.filterMap (fun a => match a with | Action.streamWrite c => some c | _ => none)

end Handler

namespace TimeoutCtl

/-- Modelled from the spec: the `ResponseState` lifecycle of
`Net::Http::Response` (§3, §4.4) — `Pending → (Sending) → Complete`,
with writing after Complete a usage error.  The `Response` implementation
is library code of this repository not present under `src/`. -/
inductive RespState where
  | pending | sending | complete
  deriving DecidableEq, Repr

/-- Modelled from the spec: the Timeout Controller states (§4.3),
`Unarmed → Armed → {Fired, Cancelled}`.  The `Net::Http::Timeout`
implementation is library code of this repository not present under
`src/`. -/
inductive TimerState where
  | unarmed | armed | fired | cancelled
  deriving DecidableEq, Repr

/-- Outcome of a `send` attempt: accepted, or the §4.4 usage error raised
when the response is already Complete. -/
inductive SendResult where
  | ok | usageError
  deriving DecidableEq, Repr

/-- Per-request state: response-writer state, timeout-controller state and
the list of responses actually emitted on the wire. -/
structure ReqCtx where
  resp : RespState
  timer : TimerState
  outputs : List Stats.Sent
  deriving DecidableEq, Repr

/-- The state of a freshly dispatched request (§3: TimeoutHandle created
unarmed at dispatch start; ResponseState Pending; nothing emitted). -/
def ReqCtx.init : ReqCtx := ⟨RespState.pending, TimerState.unarmed, []⟩

/-- Modelled from the spec: single-shot `send` (§4.4) — fails with a usage
error when already Complete, otherwise transitions to Complete, emits the
response, and completion cancels an armed timeout (§4.4 side effect,
§4.3 normal completion path). -/
def ReqCtx.send (c : ReqCtx) (s : Stats.Sent) : SendResult × ReqCtx :=
  match c.resp with
  | RespState.complete => (SendResult.usageError, c)
  | _ =>
      let t := match c.timer with
        | TimerState.armed => TimerState.cancelled
        | t => t
      (SendResult.ok, ⟨RespState.complete, t, c.outputs ++ [s]⟩)

/-- Modelled from the spec: `arm(duration)` (§4.3) — valid from Unarmed;
arming twice is treated as a no-op override. -/
def ReqCtx.arm (c : ReqCtx) : ReqCtx :=
  match c.timer with
  | TimerState.unarmed => { c with timer := TimerState.armed }
  | _ => c

/-- Modelled from the spec: the timer elapsing (§4.3).  While Armed with
the response not yet Complete it transitions to Fired and invokes the
registered timeout callback — `MyHandler::onTimeout`, which sends status
408 body "Timeout" (main.cc lines 81–85).  If the writer is already
Complete the callback is a tolerated silent no-op; in any other timer
state nothing happens. -/
def ReqCtx.timerFire (c : ReqCtx) : ReqCtx :=
  match c.timer with
  | TimerState.armed =>
      match c.resp with
      | RespState.complete => c
      | _ => (ReqCtx.send { c with timer := TimerState.fired } Handler.onTimeout).2
  | _ => c

end TimeoutCtl

namespace Monitor

/-- What the `requestLoad` continuation of `LoadMonitor::run` logs
(main.cc lines 127–133): either `"Global load is <g>%"` for the clamped
value `g`, or the literal line `"Global load is 0%"`. -/
inductive LoadLog where
  | percent (g : ℚ) : LoadLog
  | zeroPercent : LoadLog
  deriving DecidableEq, Repr

/-- The logging body of `LoadMonitor::run`'s `requestLoad` continuation
(main.cc lines 127–133): `double global = load.global; if (global > 100)
global = 100;` then print `global` if `global > 1`, else print `0%`.  The
`double` is modelled as a rational; the code performs only comparisons and
a constant assignment on it, no rounding arithmetic. -/
def logLoad (global : ℚ) : LoadLog :=
  let g := if global > 100 then 100 else global
  if g > 1 then LoadLog.percent g else LoadLog.zeroPercent

/-- The environment one iteration of `LoadMonitor::run` observes: the value
of the atomic `shutdown_` flag read by the `while` condition, the result of
`endpoint_->isBound()`, and the `load.global` the `requestLoad` future
delivers. -/
structure IterEnv where
  shutdownFlag : Bool
  isBound : Bool
  loadGlobal : ℚ
  deriving DecidableEq, Repr

/-- One observable effect of a `LoadMonitor::run` iteration: the
tick (the `requestLoad` round plus its log line), or the
`sleep_for(interval)` call. -/
inductive MonAction where
  | tick (log : LoadLog) : MonAction
  | sleep (seconds : Nat) : MonAction
  deriving DecidableEq, Repr

/-- The body of one `while (!shutdown_)` iteration of `LoadMonitor::run`
(main.cc lines 121–138): `if (!endpoint_->isBound()) continue;` — the
`continue` jumps back to the loop head, skipping both the tick and the
`sleep_for` — otherwise the tick runs and then the thread sleeps for the
interval. -/
def monitorIter (interval : Nat) (e : IterEnv) : List MonAction :=
  if !e.isBound then []
  else [MonAction.tick (logLoad e.loadGlobal), MonAction.sleep interval]

/-- `LoadMonitor::run`'s loop over a trace of per-iteration environments:
the `shutdown_` flag is consulted only at the loop head, so the first
environment whose flag reads true ends the loop, and every earlier
iteration contributes its full `monitorIter` effects before the next flag
read. -/
def monitorRun (interval : Nat) : List IterEnv → List MonAction
  | [] => []
  | e :: es =>
      if e.shutdownFlag then []
      else monitorIter interval e ++ monitorRun interval es

end Monitor

namespace Config

/-- `Net::Ipv4::any()` — the wildcard IPv4 address `main` binds
(main.cc line 249). -/
inductive IpAddr where
  | anyIPv4
  deriving DecidableEq, Repr

/-- The configuration `main` (main.cc lines 237–258) assembles: the parsed
port and thread count, the bound address, and the worker-thread count the
HTTP endpoint is actually initialised with. -/
structure MainConfig where
  port : Int
  thr : Int
  addrIp : IpAddr
  endpointThreads : Nat
  deriving DecidableEq, Repr

/-- `main`'s argument handling (main.cc lines 237–250) together with
`StatsEndpoint::init` (lines 148–154).  `args` is the list of numeric
values `std::stol` yields for `argv[1], argv[2], ...`, so
`argc = args.length + 1`.  `port` starts at 9080 and is overwritten from
`argv[1]` when `argc >= 2`; `thr` starts at 2 and is overwritten from
`argv[2]` only when additionally `argc == 3`.  The address is
`Address(Ipv4::any(), port)`.  `init` builds the endpoint options with
`.threads(1)` — a constant 1, independent of `thr`, which is only printed
("Using <thr> threads"). -/
def mainConfig (args : List Int) : MainConfig :=
  let argc := args.length + 1
  let port : Int := if argc ≥ 2 then args.getD 0 9080 else 9080
  let thr : Int := if argc ≥ 2 ∧ argc = 3 then args.getD 1 2 else 2
  ⟨port, thr, IpAddr.anyIPv4, 1⟩

end Config

namespace RMW

/-- A sub-step of `Metric::incr` executed by thread `tid`: `incr` is the
non-atomic sequence `int old = value_;` (read) then `value_ += n;
return old;` (write of `old + n`, here `n = 1`); `metrics` is a plain
`std::vector` and `value_` a plain `int`, with no lock or atomic anywhere
in `StatsEndpoint`, so concurrent executions of the two sub-steps
interleave freely. -/
inductive IncrStep where
  | read (tid : Nat) : IncrStep
  | write (tid : Nat) : IncrStep
  deriving DecidableEq, Repr

/-- Shared/local state for interleaved `incr` executions on one metric:
the shared `value_` field and each thread's local `old` register
(association list from thread id to the value it read). -/
structure RMWState where
  value : Int
  reg : List (Nat × Int)
  deriving DecidableEq, Repr

/-- Execute one sub-step: a read loads the shared `value_` into the
thread's `old` register; a write stores `old + 1` to the shared field
(`value_ += 1` evaluated from the previously loaded value, as the
separate load and store of the non-atomic `+=` on the `int` field).
A write by a thread that has not read is a no-op (no such schedule is
used). -/
def rmwStep (s : RMWState) : IncrStep → RMWState
  | IncrStep.read t => ⟨s.value, (t, s.value) :: s.reg⟩
  | IncrStep.write t =>
      match s.reg.lookup t with
      | some old => ⟨old + 1, s.reg⟩
      | none => s

/-- Run a schedule of sub-steps from a state. -/
def rmwRun (s : RMWState) (sched : List IncrStep) : RMWState :=
  sched.foldl rmwStep s

/-- The sub-steps of a schedule belonging to thread `t`, in order: a
schedule is a legal interleaving of complete `incr(1)` calls by threads
`t₁, ..., tₖ` when its projection on each `tᵢ` is
`[read tᵢ, write tᵢ]`. -/
def threadProj (t : Nat) (sched : List IncrStep) : List IncrStep :=
  sched.filter (fun st => match st with
    | IncrStep.read u => u == t
    | IncrStep.write u => u == t)

end RMW


namespace Stats

theorem record_absent (ms : Metrics) (name : String)
    (h : ms.find? (nameIs name) = none) :
    doRecordMetric ms name = (ms ++ [⟨name, 1⟩], ⟨201, Body.empty⟩) := by
  induction ms with
  | nil => rfl
  | cons m t ih =>
      have hall := List.find?_eq_none.mp h
      have hm : ¬ nameIs name m = true := hall m (List.mem_cons_self m t)
      have ht : t.find? (nameIs name) = none :=
        List.find?_eq_none.mpr (fun x hx => hall x (List.mem_cons_of_mem m hx))
      simp [doRecordMetric, hm, ih ht]

theorem record_found (ms : Metrics) (name : String) (m : Metric)
    (h : ms.find? (nameIs name) = some m) :
    (doRecordMetric ms name).2 = ⟨200, Body.str (toString (m.value_ + 1))⟩ ∧
    (doRecordMetric ms name).1.find? (nameIs name) =
      some ⟨m.name_, m.value_ + 1⟩ := by
  induction ms with
  | nil => simp [List.find?] at h
  | cons a t ih =>
      cases hp : nameIs name a with
      | true =>
          have ha : a = m := by
            rw [List.find?_cons_of_pos _ hp] at h
            exact Option.some.inj h
          subst ha
          have hp' : nameIs name ⟨a.name_, a.value_ + 1⟩ = true := hp
          constructor
          · simp [doRecordMetric, hp, Metric.incr]
          · simp [doRecordMetric, hp, Metric.incr,
              List.find?_cons_of_pos _ hp']
      | false =>
          have hp'' : ¬ nameIs name a = true := by simp [hp]
          rw [List.find?_cons_of_neg _ hp''] at h
          obtain ⟨h1, h2⟩ := ih h
          constructor
          · simpa [doRecordMetric, hp] using h1
          · simpa [doRecordMetric, hp, List.find?_cons_of_neg _ hp''] using h2

theorem find?_append_singleton (ms : Metrics) (name : String)
    (h : ms.find? (nameIs name) = none) :
    (ms ++ [(⟨name, 1⟩ : Metric)]).find? (nameIs name) =
      some ⟨name, 1⟩ := by
  rw [List.find?_append, h]
  simp [nameIs, List.find?]

end Stats

/-- C9: in `doGetMetric`, for every queried name absent from the metrics
store, the 404-sending branch does not terminate the handler: control
falls through, the end iterator of the metrics vector is dereferenced
(an out-of-range access), and `send` is invoked a second time on the same
response object — two sends plus the out-of-range access, so the absent
and found branches are not mutually exclusive and single completion cannot
hold for unseen names. -/
theorem getMetric_absent_fallthrough (ms : Stats.Metrics) (name : String)
    (h : ms.find? (Stats.nameIs name) = none) :
    Stats.doGetMetric ms name =
      [Stats.GetStep.sent ⟨404, Stats.Body.empty⟩, Stats.GetStep.derefEnd,
       Stats.GetStep.sent ⟨200, Stats.Body.indeterminate⟩] ∧
    Stats.sendCount (Stats.doGetMetric ms name) = 2 ∧
    Stats.GetStep.derefEnd ∈ Stats.doGetMetric ms name := by
  have he : Stats.doGetMetric ms name =
      [Stats.GetStep.sent ⟨404, Stats.Body.empty⟩, Stats.GetStep.derefEnd,
       Stats.GetStep.sent ⟨200, Stats.Body.indeterminate⟩] := by
    simp [Stats.doGetMetric, h]
  rw [he]
  exact ⟨rfl, rfl, by simp⟩

/-- Witness for C9 at the store `[{name := "requests", value := 3}]` and
the unseen name `"value"`. -/
theorem getMetric_absent_fallthrough_witness :
    ([(⟨"requests", 3⟩ : Stats.Metric)] : Stats.Metrics).find?
        (Stats.nameIs "value") = none ∧
    (Stats.doGetMetric [⟨"requests", 3⟩] "value" =
      [Stats.GetStep.sent ⟨404, Stats.Body.empty⟩, Stats.GetStep.derefEnd,
       Stats.GetStep.sent ⟨200, Stats.Body.indeterminate⟩] ∧
    Stats.sendCount (Stats.doGetMetric [⟨"requests", 3⟩] "value") = 2 ∧
    Stats.GetStep.derefEnd ∈ Stats.doGetMetric [⟨"requests", 3⟩] "value") :=
  ⟨by decide, getMetric_absent_fallthrough [⟨"requests", 3⟩] "value" (by decide)⟩

/-- C1 (code bug): evaluated on the unseen name "unknown" with an empty
store, `doGetMetric` does not send exactly one 404 response — it sends the
404, dereferences the end iterator, and sends a second (200) response, so
its send count is 2, not 1.  On a recorded name the handler does send
exactly one 200 response carrying the value as a plain-text body. -/
theorem getMetric_unseen_not_single_404 :
    Stats.doGetMetric [] "unknown" =
      [Stats.GetStep.sent ⟨404, Stats.Body.empty⟩, Stats.GetStep.derefEnd,
       Stats.GetStep.sent ⟨200, Stats.Body.indeterminate⟩] ∧
    Stats.sendCount (Stats.doGetMetric [] "unknown") ≠ 1 ∧
    Stats.doGetMetric [⟨"requests", 1⟩] "requests" =
      [Stats.GetStep.sent ⟨200, Stats.Body.str "1"⟩] := by
  refine ⟨rfl, by decide, ?_⟩
  rfl

/-- C2: `doRecordMetric` on an unseen name appends a metric with initial
value 1 and responds 201 Created, and a subsequent `doGetMetric` observes
value "1"; on an existing name it increments that metric by exactly 1 and
responds 200 with the post-increment value as plain-text body, `incr`
itself returning the value observed immediately before the increment, and
a subsequent `doGetMetric` observes the incremented value. -/
theorem recordMetric_create_or_increment (ms : Stats.Metrics) (name : String) :
    (ms.find? (Stats.nameIs name) = none →
       Stats.doRecordMetric ms name =
         (ms ++ [⟨name, 1⟩], ⟨201, Stats.Body.empty⟩) ∧
       Stats.doGetMetric (Stats.doRecordMetric ms name).1 name =
         [Stats.GetStep.sent ⟨200, Stats.Body.str "1"⟩]) ∧
    (∀ m, ms.find? (Stats.nameIs name) = some m →
       (Stats.doRecordMetric ms name).2 =
         ⟨200, Stats.Body.str (toString (m.value_ + 1))⟩ ∧
       (m.incr 1).1 = m.value_ ∧
       (Stats.doRecordMetric ms name).1.find? (Stats.nameIs name) =
         some ⟨m.name_, m.value_ + 1⟩ ∧
       Stats.doGetMetric (Stats.doRecordMetric ms name).1 name =
         [Stats.GetStep.sent ⟨200, Stats.Body.str (toString (m.value_ + 1))⟩]) := by
  constructor
  · intro h
    have he := Stats.record_absent ms name h
    have hf := Stats.find?_append_singleton ms name h
    refine ⟨he, ?_⟩
    rw [he]
    simp only [Stats.doGetMetric, hf]
    rfl
  · intro m h
    obtain ⟨h1, h2⟩ := Stats.record_found ms name m h
    exact ⟨h1, rfl, h2, by simp [Stats.doGetMetric, h2]⟩

/-- Witness for C2: creating "x" in the empty store, then incrementing the
existing metric {name := "x", value := 1}. -/
theorem recordMetric_create_or_increment_witness :
    (([] : Stats.Metrics).find? (Stats.nameIs "x") = none ∧
     (Stats.doRecordMetric [] "x" =
        ([] ++ [⟨"x", 1⟩], ⟨201, Stats.Body.empty⟩) ∧
      Stats.doGetMetric (Stats.doRecordMetric [] "x").1 "x" =
        [Stats.GetStep.sent ⟨200, Stats.Body.str "1"⟩])) ∧
    (([(⟨"x", 1⟩ : Stats.Metric)] : Stats.Metrics).find? (Stats.nameIs "x") =
        some ⟨"x", 1⟩ ∧
     ((Stats.doRecordMetric [⟨"x", 1⟩] "x").2 =
        ⟨200, Stats.Body.str (toString ((1 : Int) + 1))⟩ ∧
      ((⟨"x", 1⟩ : Stats.Metric).incr 1).1 = (⟨"x", 1⟩ : Stats.Metric).value_ ∧
      (Stats.doRecordMetric [⟨"x", 1⟩] "x").1.find? (Stats.nameIs "x") =
        some ⟨"x", (1 : Int) + 1⟩ ∧
      Stats.doGetMetric (Stats.doRecordMetric [⟨"x", 1⟩] "x").1 "x" =
        [Stats.GetStep.sent ⟨200, Stats.Body.str (toString ((1 : Int) + 1))⟩])) :=
  ⟨⟨by decide, (recordMetric_create_or_increment [] "x").1 (by decide)⟩,
   ⟨by decide, (recordMetric_create_or_increment [⟨"x", 1⟩] "x").2 ⟨"x", 1⟩ (by decide)⟩⟩

/-- C3 (code bug): `Metric::incr` is a non-atomic read-modify-write on an
unsynchronised field, so after the metric "y" is created with value 1, two
further concurrent increment calls can interleave their sub-steps as
read-read-write-write and leave the value at 2, although three
increment-or-create calls completed — the claim requires a read of 3; the
sequential schedule of the same two calls does yield 3. -/
theorem incr_concurrent_lost_update :
    RMW.threadProj 0 [RMW.IncrStep.read 0, RMW.IncrStep.read 1,
        RMW.IncrStep.write 0, RMW.IncrStep.write 1] =
      [RMW.IncrStep.read 0, RMW.IncrStep.write 0] ∧
    RMW.threadProj 1 [RMW.IncrStep.read 0, RMW.IncrStep.read 1,
        RMW.IncrStep.write 0, RMW.IncrStep.write 1] =
      [RMW.IncrStep.read 1, RMW.IncrStep.write 1] ∧
    (RMW.rmwRun ⟨1, []⟩ [RMW.IncrStep.read 0, RMW.IncrStep.read 1,
        RMW.IncrStep.write 0, RMW.IncrStep.write 1]).value = 2 ∧
    (RMW.rmwRun ⟨1, []⟩ [RMW.IncrStep.read 0, RMW.IncrStep.write 0,
        RMW.IncrStep.read 1, RMW.IncrStep.write 1]).value = 3 ∧
    (2 : Int) ≠ 3 := by decide

/-- C4 counterexample: for the `/timeout` route the handler arms a timeout
and never completes; when the deadline elapses, the single fallback
response produced through `MyHandler::onTimeout` has status 408 and body
"Timeout" — not a "Request Timeout" body as the claim states. -/
theorem timeout_fallback_body_not_request_timeout :
    Handler.onRequest ⟨"/timeout", Handler.Method.get, [], ""⟩ =
      [Handler.Action.armTimeout 5] ∧
    TimeoutCtl.ReqCtx.init.arm.timerFire.outputs =
      [⟨408, Stats.Body.str "Timeout"⟩] ∧
    Stats.Body.str "Timeout" ≠ Stats.Body.str "Request Timeout" := by decide

/-- C4 (amended): for every request state with an armed timeout, the
response still pending and nothing yet emitted, the elapsing deadline
produces exactly one fallback response — status 408 with body "Timeout",
the body `MyHandler::onTimeout` sends — a further elapse changes nothing,
and any subsequent attempt to send a real response on the same request
fails as a usage error with no further output, the Complete state having
been reached. -/
theorem timeout_fallback_once_then_usage_error (c : TimeoutCtl.ReqCtx)
    (s : Stats.Sent) (h1 : c.resp = TimeoutCtl.RespState.pending)
    (h2 : c.timer = TimeoutCtl.TimerState.armed) (h3 : c.outputs = []) :
    c.timerFire.outputs = [⟨408, Stats.Body.str "Timeout"⟩] ∧
    c.timerFire.resp = TimeoutCtl.RespState.complete ∧
    c.timerFire.timer = TimeoutCtl.TimerState.fired ∧
    c.timerFire.timerFire = c.timerFire ∧
    (c.timerFire.send s).1 = TimeoutCtl.SendResult.usageError ∧
    (c.timerFire.send s).2 = c.timerFire := by
  obtain ⟨r, t, o⟩ := c
  dsimp at h1 h2 h3
  subst h1; subst h2; subst h3
  exact ⟨rfl, rfl, rfl, rfl, rfl, rfl⟩

/-- Witness for C4's amended theorem at the state of an armed, pending,
silent request and the late response (200, "late"). -/
theorem timeout_fallback_once_then_usage_error_witness :
    (⟨TimeoutCtl.RespState.pending, TimeoutCtl.TimerState.armed, []⟩ :
        TimeoutCtl.ReqCtx).resp = TimeoutCtl.RespState.pending ∧
    (⟨TimeoutCtl.RespState.pending, TimeoutCtl.TimerState.armed, []⟩ :
        TimeoutCtl.ReqCtx).timer = TimeoutCtl.TimerState.armed ∧
    (⟨TimeoutCtl.RespState.pending, TimeoutCtl.TimerState.armed, []⟩ :
        TimeoutCtl.ReqCtx).outputs = [] ∧
    ((⟨TimeoutCtl.RespState.pending, TimeoutCtl.TimerState.armed, []⟩ :
        TimeoutCtl.ReqCtx).timerFire.outputs =
      [⟨408, Stats.Body.str "Timeout"⟩] ∧
     (⟨TimeoutCtl.RespState.pending, TimeoutCtl.TimerState.armed, []⟩ :
        TimeoutCtl.ReqCtx).timerFire.resp = TimeoutCtl.RespState.complete ∧
     (⟨TimeoutCtl.RespState.pending, TimeoutCtl.TimerState.armed, []⟩ :
        TimeoutCtl.ReqCtx).timerFire.timer = TimeoutCtl.TimerState.fired ∧
     (⟨TimeoutCtl.RespState.pending, TimeoutCtl.TimerState.armed, []⟩ :
        TimeoutCtl.ReqCtx).timerFire.timerFire =
       (⟨TimeoutCtl.RespState.pending, TimeoutCtl.TimerState.armed, []⟩ :
        TimeoutCtl.ReqCtx).timerFire ∧
     ((⟨TimeoutCtl.RespState.pending, TimeoutCtl.TimerState.armed, []⟩ :
        TimeoutCtl.ReqCtx).timerFire.send ⟨200, Stats.Body.str "late"⟩).1 =
       TimeoutCtl.SendResult.usageError ∧
     ((⟨TimeoutCtl.RespState.pending, TimeoutCtl.TimerState.armed, []⟩ :
        TimeoutCtl.ReqCtx).timerFire.send ⟨200, Stats.Body.str "late"⟩).2 =
       (⟨TimeoutCtl.RespState.pending, TimeoutCtl.TimerState.armed, []⟩ :
        TimeoutCtl.ReqCtx).timerFire) :=
  ⟨rfl, rfl, rfl,
   timeout_fallback_once_then_usage_error
     ⟨TimeoutCtl.RespState.pending, TimeoutCtl.TimerState.armed, []⟩
     ⟨200, Stats.Body.str "late"⟩ rfl rfl rfl⟩

/-- C5: for every GET request to /ping with the `chunked` query flag, the
handler arms a 2-second timeout, sets content-type text/plain, opens a
200 stream and writes the chunk "PO" then the chunk "NG" before the
stream-end signal, so the chunks concatenate to "PONG" delivered in at
least two writes. -/
theorem ping_chunked_streams_pong (req : Handler.Request)
    (h1 : req.resource = "/ping") (h2 : req.method = Handler.Method.get)
    (h3 : req.query.contains "chunked" = true) :
    Handler.onRequest req =
      [Handler.Action.armTimeout 2,
       Handler.Action.logLine "Using chunked encoding",
       Handler.Action.headerServer "lys",
       Handler.Action.headerContentType "text/plain",
       Handler.Action.beginStream 200,
       Handler.Action.streamWrite "PO",
       Handler.Action.streamWrite "NG",
       Handler.Action.streamEnds] ∧
    Handler.chunksOf (Handler.onRequest req) = ["PO", "NG"] ∧
    String.join (Handler.chunksOf (Handler.onRequest req)) = "PONG" ∧
    2 ≤ (Handler.chunksOf (Handler.onRequest req)).length := by
  obtain ⟨res, meth, q, b⟩ := req
  dsimp at h1 h2 h3
  subst h1; subst h2
  have he : Handler.onRequest ⟨"/ping", Handler.Method.get, q, b⟩ =
      [Handler.Action.armTimeout 2,
       Handler.Action.logLine "Using chunked encoding",
       Handler.Action.headerServer "lys",
       Handler.Action.headerContentType "text/plain",
       Handler.Action.beginStream 200,
       Handler.Action.streamWrite "PO",
       Handler.Action.streamWrite "NG",
       Handler.Action.streamEnds] := by
    simp at h3
    simp [Handler.onRequest, h3]
  rw [he]
  exact ⟨rfl, rfl, rfl, by decide⟩

/-- Witness for C5 at the request GET /ping?chunked. -/
theorem ping_chunked_streams_pong_witness :
    (Handler.Request.mk "/ping" Handler.Method.get ["chunked"] "").resource =
      "/ping" ∧
    (Handler.Request.mk "/ping" Handler.Method.get ["chunked"] "").method =
      Handler.Method.get ∧
    (Handler.Request.mk "/ping" Handler.Method.get ["chunked"] "").query.contains
      "chunked" = true ∧
    (Handler.onRequest ⟨"/ping", Handler.Method.get, ["chunked"], ""⟩ =
      [Handler.Action.armTimeout 2,
       Handler.Action.logLine "Using chunked encoding",
       Handler.Action.headerServer "lys",
       Handler.Action.headerContentType "text/plain",
       Handler.Action.beginStream 200,
       Handler.Action.streamWrite "PO",
       Handler.Action.streamWrite "NG",
       Handler.Action.streamEnds] ∧
     Handler.chunksOf
       (Handler.onRequest ⟨"/ping", Handler.Method.get, ["chunked"], ""⟩) =
       ["PO", "NG"] ∧
     String.join (Handler.chunksOf
       (Handler.onRequest ⟨"/ping", Handler.Method.get, ["chunked"], ""⟩)) =
       "PONG" ∧
     2 ≤ (Handler.chunksOf
       (Handler.onRequest ⟨"/ping", Handler.Method.get, ["chunked"], ""⟩)).length) :=
  ⟨rfl, rfl, by decide,
   ping_chunked_streams_pong ⟨"/ping", Handler.Method.get, ["chunked"], ""⟩
     rfl rfl (by decide)⟩

/-- C10: the 2-second timeout is armed before the `chunked` flag is
inspected — every GET /ping action list starts with the arming; without
the flag the handler arms the timeout and produces nothing else (no
response actions); for a non-GET method on /ping it neither arms a timeout
nor produces any action. -/
theorem ping_arms_timeout_before_chunked_check (req : Handler.Request)
    (h1 : req.resource = "/ping") :
    (req.method = Handler.Method.get →
       (Handler.onRequest req).head? = some (Handler.Action.armTimeout 2)) ∧
    (req.method = Handler.Method.get → req.query.contains "chunked" = false →
       Handler.onRequest req = [Handler.Action.armTimeout 2]) ∧
    (req.method ≠ Handler.Method.get → Handler.onRequest req = []) := by
  obtain ⟨res, meth, q, b⟩ := req
  dsimp at h1
  subst h1
  refine ⟨?_, ?_, ?_⟩
  · intro hm
    dsimp at hm
    subst hm
    by_cases hq : q.contains "chunked" <;> simp [Handler.onRequest, hq]
  · intro hm hq
    dsimp at hm hq
    subst hm
    simp at hq
    simp [Handler.onRequest, hq]
  · intro hm
    have hne : (meth == Handler.Method.get) = false := by
      cases meth <;> simp_all
    simp [Handler.onRequest, hne]

/-- Witness for C10 at the non-chunked request GET /ping and at
POST /ping?chunked. -/
theorem ping_arms_timeout_before_chunked_check_witness :
    (Handler.Request.mk "/ping" Handler.Method.get [] "").resource = "/ping" ∧
    ((Handler.Request.mk "/ping" Handler.Method.get [] "").method =
        Handler.Method.get →
      (Handler.onRequest ⟨"/ping", Handler.Method.get, [], ""⟩).head? =
        some (Handler.Action.armTimeout 2)) ∧
    ((Handler.Request.mk "/ping" Handler.Method.get [] "").method =
        Handler.Method.get →
      (Handler.Request.mk "/ping" Handler.Method.get [] "").query.contains
        "chunked" = false →
      Handler.onRequest ⟨"/ping", Handler.Method.get, [], ""⟩ =
        [Handler.Action.armTimeout 2]) ∧
    ((Handler.Request.mk "/ping" Handler.Method.post ["chunked"] "").method ≠
        Handler.Method.get →
      Handler.onRequest ⟨"/ping", Handler.Method.post, ["chunked"], ""⟩ = []) :=
  ⟨rfl,
   (ping_arms_timeout_before_chunked_check
      ⟨"/ping", Handler.Method.get, [], ""⟩ rfl).1,
   (ping_arms_timeout_before_chunked_check
      ⟨"/ping", Handler.Method.get, [], ""⟩ rfl).2.1,
   (ping_arms_timeout_before_chunked_check
      ⟨"/ping", Handler.Method.post, ["chunked"], ""⟩ rfl).2.2⟩

/-- C6 (code bug): with arguments "8080 8" the parsed port is 8080 and the
parsed thread count is 8, with no arguments the defaults are port 9080 and
2 threads, and the bound address is the wildcard IPv4 address — but
`StatsEndpoint::init` builds the endpoint options with `.threads(1)`, so
the worker pool is configured to the constant 1, not to the externally
supplied size. -/
theorem main_threads_hardcoded_one :
    (Config.mainConfig [8080, 8]).port = 8080 ∧
    (Config.mainConfig [8080, 8]).thr = 8 ∧
    (Config.mainConfig [8080, 8]).endpointThreads = 1 ∧
    (Config.mainConfig []).port = 9080 ∧
    (Config.mainConfig []).thr = 2 ∧
    (Config.mainConfig []).addrIp = Config.IpAddr.anyIPv4 ∧
    (Config.mainConfig [8080, 8]).endpointThreads ≠ 8 := by decide

/-- C7: the load-monitor tick clamps the raw load value to the 0–100
display range: a raw value ≤ 1 is logged as the literal "0%" line, a raw
value in (1, 100] is logged as-is, and a raw value above 100 is logged
as 100. -/
theorem load_log_clamped (g : ℚ) :
    (g ≤ 1 → Monitor.logLoad g = Monitor.LoadLog.zeroPercent) ∧
    (1 < g → g ≤ 100 → Monitor.logLoad g = Monitor.LoadLog.percent g) ∧
    (100 < g → Monitor.logLoad g = Monitor.LoadLog.percent 100) := by
  refine ⟨fun h => ?_, fun h1 h2 => ?_, fun h => ?_⟩ <;>
    simp only [Monitor.logLoad]
  · rw [if_neg (not_lt.mpr (h.trans (by norm_num))), if_neg (not_lt.mpr h)]
  · rw [if_neg (not_lt.mpr h2), if_pos h1]
  · rw [if_pos h, if_pos (by norm_num : (1:ℚ) < 100)]

/-- Witness for C7 at the raw values 0, 50 and 150. -/
theorem load_log_clamped_witness :
    ((0:ℚ) ≤ 1 ∧ Monitor.logLoad 0 = Monitor.LoadLog.zeroPercent) ∧
    ((1:ℚ) < 50 ∧ (50:ℚ) ≤ 100 ∧
      Monitor.logLoad 50 = Monitor.LoadLog.percent 50) ∧
    ((100:ℚ) < 150 ∧ Monitor.logLoad 150 = Monitor.LoadLog.percent 100) :=
  ⟨⟨by decide, (load_log_clamped 0).1 (by decide)⟩,
   ⟨by decide, by decide, (load_log_clamped 50).2.1 (by decide) (by decide)⟩,
   ⟨by decide, (load_log_clamped 150).2.2 (by decide)⟩⟩

/-- C8 counterexample: an iteration of the load-monitor loop that observes
the endpoint not yet bound (shutdown flag clear) performs no action at
all — in particular it does not sleep for the interval, because the
`continue` jumps over the `sleep_for` as well, so the tick is not skipped
"without truncating the sleep interval". -/
theorem monitor_unbound_skips_sleep :
    Monitor.monitorIter 1 ⟨false, false, 0⟩ = [] ∧
    Monitor.MonAction.sleep 1 ∉ Monitor.monitorIter 1 ⟨false, false, 0⟩ := by
  decide

/-- C8 (amended): when an iteration observes the endpoint not bound it
skips the tick and the sleep entirely, contributing no action before the
next shutdown-flag check; the loop ends at the first iteration whose
shutdown-flag read is true, emitting nothing further; and an iteration
entered with the flag clear and the endpoint bound contributes its
complete tick-then-sleep effects before the flag is consulted again, so
shutdown never cuts an in-flight iteration short. -/
theorem monitor_skip_and_shutdown (interval : Nat) (e : Monitor.IterEnv)
    (es : List Monitor.IterEnv) :
    (e.isBound = false → e.shutdownFlag = false →
       Monitor.monitorIter interval e = [] ∧
       Monitor.monitorRun interval (e :: es) =
         Monitor.monitorRun interval es) ∧
    (e.shutdownFlag = true → Monitor.monitorRun interval (e :: es) = []) ∧
    (e.shutdownFlag = false → e.isBound = true →
       Monitor.monitorRun interval (e :: es) =
         Monitor.MonAction.tick (Monitor.logLoad e.loadGlobal) ::
         Monitor.MonAction.sleep interval ::
         Monitor.monitorRun interval es) := by
  refine ⟨fun h1 h2 => ⟨?_, ?_⟩, fun h => ?_, fun h1 h2 => ?_⟩
  · simp [Monitor.monitorIter, h1]
  · simp [Monitor.monitorRun, Monitor.monitorIter, h1, h2]
  · simp [Monitor.monitorRun, h]
  · simp [Monitor.monitorRun, Monitor.monitorIter, h1, h2]

/-- Witness for C8's amended theorem: an unbound iteration, a
shutdown-flag iteration, and a bound iteration at load 50, each ahead of
an empty remainder of the trace. -/
theorem monitor_skip_and_shutdown_witness :
    ((Monitor.IterEnv.mk false false 0).isBound = false →
     (Monitor.IterEnv.mk false false 0).shutdownFlag = false →
       Monitor.monitorIter 1 ⟨false, false, 0⟩ = [] ∧
       Monitor.monitorRun 1 [⟨false, false, 0⟩] = Monitor.monitorRun 1 []) ∧
    ((Monitor.IterEnv.mk true true 0).shutdownFlag = true →
       Monitor.monitorRun 1 [⟨true, true, 0⟩] = []) ∧
    ((Monitor.IterEnv.mk false true 50).shutdownFlag = false →
     (Monitor.IterEnv.mk false true 50).isBound = true →
       Monitor.monitorRun 1 [⟨false, true, 50⟩] =
         Monitor.MonAction.tick (Monitor.logLoad 50) ::
         Monitor.MonAction.sleep 1 :: Monitor.monitorRun 1 []) :=
  ⟨(monitor_skip_and_shutdown 1 ⟨false, false, 0⟩ []).1,
   (monitor_skip_and_shutdown 1 ⟨true, true, 0⟩ []).2.1,
   (monitor_skip_and_shutdown 1 ⟨false, true, 50⟩ []).2.2⟩
